import Mathlib

/-!
# Verification of the Quizzer real-time coordination core

Shallow embedding of the message router (`service/game/consumers.py`), the
resilient hardware client protocol (`hardware/lib/websocket_client.py`), the
WebSocket↔OSC protocol bridge (`hardware/osc_bridge.py`) and the physical
buzzer scanner (`hardware/buzzers.py`), together with proofs about the
properties the specification states for them.

Wire values are modelled by `Prim` (JSON/YAML/OSC scalars, with Python's
int/float distinction kept and floats modelled as rationals — every operation
the code performs on them here, doubling, `min`, comparison, is exact on
binary floats) and `Val`, which additionally allows one level of structure
(a flat list or a flat object), which is as deep as any message this system
exchanges nests (e.g. the `recipient` selector object inside a message).
-/

namespace Quizzer

/-- A scalar JSON/YAML/OSC value as Python sees it after parsing. -/
inductive Prim where
  | null
  | bool (b : Bool)
  | int (n : Int)
  | float (q : ℚ)
  | str (s : String)
deriving DecidableEq

/-- A message field value: a scalar, a flat list of scalars, or a flat
object of scalars (such as a `recipient` selector). -/
inductive Val where
  | prim (p : Prim)
  | list (xs : List Prim)
  | obj (fields : List (String × Prim))
deriving DecidableEq

/-- Python truthiness of a scalar (`bool(value)`). -/
def Prim.truthy : Prim → Bool
  | .null => false
  | .bool b => b
  | .int n => n != 0
  | .float q => q != 0
  | .str s => s != ""

/-- Python truthiness of a value. -/
def Val.truthy : Val → Bool
  | .prim p => p.truthy
  | .list xs => !xs.isEmpty
  | .obj fs => !fs.isEmpty

/-- Whether a value is a Python mapping (`isinstance(value, dict)`). -/
def Val.isObj : Val → Bool
  | .obj _ => true
  | _ => false

/-- First-occurrence lookup in an association list modelling a Python dict
(`d.get(k)` / `k in d`). -/
def getKey {α : Type} : List (String × α) → String → Option α
  | [], _ => none
  | (k', v) :: rest, k => if k' == k then some v else getKey rest k

/-- Python dict assignment `d[k] = v`: replace the value in place if the key
exists, otherwise append the key at the end. -/
def setKey {α : Type} : List (String × α) → String → α → List (String × α)
  | [], k, v => [(k, v)]
  | (k', v') :: rest, k, v =>
      if k' == k then (k, v) :: rest else (k', v') :: setKey rest k v

/-- Python `==` between a known string and a scalar wire value. -/
def eqStrPrim (s : String) : Prim → Bool
  | .str t => s == t
  | _ => false

/-- Python `==` between an optional-string attribute (`self.client_id`,
`self.client_type`, which are `Optional[str]`) and a scalar wire value:
`None == None` is true, a string equals only the same string. -/
def pyEqOptStr : Option String → Prim → Bool
  | some s, .str t => s == t
  | none, .null => true
  | _, _ => false

/-! ## Router (`GameConsumer` in `service/game/consumers.py`) -/

/-- One live Connection in a Room: a channel identity assigned by the
transport plus the optional `client_type` / `client_id` attributes parsed
from the query string. -/
structure Conn where
  channel_name : String
  client_type : Option String
  client_id : Option String
deriving DecidableEq

/-- A frame arriving at `GameConsumer.receive_json`: either a JSON object
(`dict`) or some non-object payload. -/
inductive Frame where
  | obj (fields : List (String × Val))
  | notObj (v : Val)
deriving DecidableEq

/-- What `receive_json` does with a frame: drop it, broadcast the content to
the Room group, unicast it to one channel, or broadcast it together with the
recipient selector for per-connection filtering. -/
inductive RouterAction where
  | drop
  | broadcast (fields : List (String × Val))
  | unicast (target : Prim) (fields : List (String × Val))
  | filtered (fields : List (String × Val)) (recipient : List (String × Prim))
deriving DecidableEq

/-- `GameConsumer.receive_json`: relay with optional recipient targeting.
Mirrors the code: non-dict or type-less content is dropped; a falsy
`recipient` (absent, null, or otherwise falsy) means broadcast; a truthy
non-dict `recipient` is dropped; `{channel_id}` alone is a channel-layer
unicast; anything else is a group send carrying the recipient selector. -/
def receive_json (content : Frame) : RouterAction :=
  match content with
  | .notObj _ => .drop
  | .obj fields =>
    if (getKey fields "type").isNone then .drop
    else
      match getKey fields "recipient" with
      | none => .broadcast fields
      | some r =>
        if !r.truthy then .broadcast fields
        else
          match r with
          | .obj rf =>
            if (getKey rf "channel_id").isSome && rf.length == 1 then
              .unicast ((getKey rf "channel_id").getD .null) fields
            else .filtered fields rf
          | _ => .drop

/-- The filter in `GameConsumer.game_message`: every key present in the
recipient selector must equal the receiving connection's corresponding
attribute (AND semantics). -/
def matchesRecipient (conn : Conn) (rf : List (String × Prim)) : Bool :=
  (match getKey rf "channel_id" with
   | some p => eqStrPrim conn.channel_name p
   | none => true) &&
  (match getKey rf "client_id" with
   | some p => pyEqOptStr conn.client_id p
   | none => true) &&
  (match getKey rf "client_type" with
   | some p => pyEqOptStr conn.client_type p
   | none => true)

/-- `GameConsumer.game_message` as run on one receiving connection: apply the
recipient filter if a selector is present, then stamp
`message["channel_id"] = self.channel_name` — the *receiver's* channel
identity — into the outgoing copy. Returns the JSON sent to this receiver,
or `none` if it was filtered out. -/
def game_message (conn : Conn) (fields : List (String × Val))
    (recipient : Option (List (String × Prim))) : Option (List (String × Val)) :=
  match recipient with
  | some rf =>
    if matchesRecipient conn rf then
      some (setKey fields "channel_id" (.prim (.str conn.channel_name)))
    else none
  | none => some (setKey fields "channel_id" (.prim (.str conn.channel_name)))

/-- `Relay(handle, message)` end to end: route the frame with `receive_json`,
then deliver through each Room member's `game_message` handler. Returns the
list of (receiver, delivered JSON) pairs. -/
def relay (room : List Conn) (content : Frame) : List (Conn × List (String × Val)) :=
  match receive_json content with
  | .drop => []
  | .broadcast fields =>
      room.filterMap fun c => (game_message c fields none).map fun m => (c, m)
  | .filtered fields rf =>
      room.filterMap fun c => (game_message c fields (some rf)).map fun m => (c, m)
  | .unicast target fields =>
      room.filterMap fun c =>
        if eqStrPrim c.channel_name target then
          (game_message c fields none).map fun m => (c, m)
        else none

/-! ## Python value equality (`==`) for scalars and flat containers

Python compares booleans and numbers by numeric value across `bool`/`int`/
`float`; other values are equal only within their own type. Dicts compare
disregarding order. -/

/-- The numeric value of a scalar, if it is a Python number (`bool` is a
subclass of `int`). -/
def Prim.numVal? : Prim → Option ℚ
  | .bool b => some (if b then 1 else 0)
  | .int n => some n
  | .float q => some q
  | _ => none

/-- Python `==` on scalars. -/
def pyEqPrim (a b : Prim) : Bool :=
  match a.numVal?, b.numVal? with
  | some x, some y => x == y
  | _, _ =>
    match a, b with
    | .null, .null => true
    | .str s, .str t => s == t
    | _, _ => false

/-- Python `==` on values (dict equality assumes genuine dicts, i.e. distinct
keys, which is what Python dicts guarantee). -/
def pyEqVal (a b : Val) : Bool :=
  match a, b with
  | .prim p, .prim q => pyEqPrim p q
  | .list xs, .list ys =>
      xs.length == ys.length && (xs.zip ys).all fun pq => pyEqPrim pq.1 pq.2
  | .obj fs, .obj gs =>
      fs.length == gs.length && fs.all fun kv =>
        match getKey gs kv.1 with
        | some w => pyEqPrim kv.2 w
        | none => false
  | _, _ => false

/-! ## Resilient client protocol (`hardware/lib/websocket_client.py`) -/

/-- `backoff = 0.1  # Start at 100ms` (binary doubling and `min` are exact on
floats, so rationals model the float arithmetic of `connect` exactly). -/
def baselineBackoff : ℚ := 1 / 10

/-- `max_backoff = 5.0` -/
def maxBackoff : ℚ := 5

/-- `backoff = min(backoff * 2, max_backoff)` -/
def nextBackoff (b : ℚ) : ℚ := min (b * 2) maxBackoff

/-- The delay slept before the (n+1)-st retry after n+1 consecutive failures
from a fresh start: the loop sleeps the current backoff, then doubles it. -/
def delayAfterFailures : ℕ → ℚ
  | 0 => baselineBackoff
  | n + 1 => nextBackoff (delayAfterFailures n)

/-- One iteration of the `while self.running` loop in `connect`: either the
connection attempt fails outright, or the handshake succeeds (which resets
the backoff to the baseline) and the socket later drops. Both paths fall
through to the same sleep-and-double epilogue. -/
inductive Attempt where
  | fail
  | succeedThenDrop
deriving DecidableEq

/-- The delay slept at the end of one loop iteration and the backoff carried
into the next iteration. -/
def connectStep (b : ℚ) : Attempt → ℚ × ℚ
  | .fail => (b, nextBackoff b)
  | .succeedThenDrop => (baselineBackoff, nextBackoff baselineBackoff)

/-- The reconnect delays slept over a run of the `connect` loop that starts
with backoff `b`. -/
def reconnectDelays (b : ℚ) : List Attempt → List ℚ
  | [] => []
  | a :: rest =>
      let s := connectStep b a
      s.1 :: reconnectDelays s.2 rest

/-- What `_message_loop` does with one parsed frame: answer it itself (ping)
or hand it to the application's `handle_message`. -/
inductive ClientEffect where
  | reply (pong : List (String × Val))
  | deliver (msg : List (String × Val))
deriving DecidableEq

/-- `_message_loop` body for one parsed dict frame: `data.get("type") ==
"ping"` diverts the frame to `_handle_ping`, which sends
`{"type": "pong", "timestamp": message.get("timestamp"),
"recipient": message.get("sender_id")}` (absent keys become null); every
other frame goes to `handle_message`. -/
def processFrame (data : List (String × Val)) : ClientEffect :=
  if (match getKey data "type" with
      | some v => pyEqVal v (.prim (.str "ping"))
      | none => false) then
    .reply [("type", Val.prim (.str "pong")),
            ("timestamp", (getKey data "timestamp").getD (Val.prim .null)),
            ("recipient", (getKey data "sender_id").getD (Val.prim .null))]
  else .deliver data

/-! ## Protocol bridge (`hardware/osc_bridge.py`) -/

/-- `message.get(field)` followed by Python's `value is None` test: an absent
key and an explicit JSON null are indistinguishable there. -/
def getNonNull (fields : List (String × Val)) (k : String) : Option Val :=
  match getKey fields k with
  | some (.prim .null) => none
  | o => o

/-- One declared outgoing argument (`args` entry of a destination): read
`field` from the message, coerce to `type`, substitute `default` when the
field is absent (`none` for no declared / null default, matching
`default_value is not None`). -/
structure ArgSpec where
  field : String
  type : Option String
  default : Option Val
deriving DecidableEq

/-- An OSC destination dict; only the keys the code reads are modelled and
`none` marks an absent key. -/
structure Dest where
  host : Option Prim
  port : Option Prim
  address : Option Prim
  args : Option (List ArgSpec)
deriving DecidableEq

/-- `{**default_dest, **dest}`: a key present in the rule's destination wins
over the shared default destination. -/
def mergeDest (dflt d : Dest) : Dest :=
  { host := d.host <|> dflt.host
    port := d.port <|> dflt.port
    address := d.address <|> dflt.address
    args := d.args <|> dflt.args }

/-- Python truthiness of the destination dict (`if … and default_dest`):
an empty dict is falsy. -/
def Dest.isEmpty (d : Dest) : Bool :=
  d.host.isNone && d.port.isNone && d.address.isNone && d.args.isNone

/-- `ConversionDirection` of `_convert_type`. -/
inductive ConversionDirection where
  | to_osc
  | to_websocket
deriving DecidableEq

/-- `ConversionDirection(direction)`: `none` models the raised `ValueError`. -/
def parseDirection (s : String) : Option ConversionDirection :=
  if s == "to_osc" then some .to_osc
  else if s == "to_websocket" then some .to_websocket
  else none

/-- `OSCType` of `_convert_type`. -/
inductive OSCType where
  | int
  | float
  | bool
  | string
deriving DecidableEq

/-- `OSCType(target_type)`: `none` models the raised `ValueError`. -/
def parseOSCType (s : String) : Option OSCType :=
  if s == "int" then some .int
  else if s == "float" then some .float
  else if s == "bool" then some .bool
  else if s == "string" then some .string
  else none

/-- Truncation toward zero, the behaviour of Python `int()` on a float. -/
def ratTruncate (q : ℚ) : ℤ := if 0 ≤ q then ⌊q⌋ else ⌈q⌉

/-- Python `int(value)`; `none` models a raised `TypeError`/`ValueError`.
(String parsing is abstracted to integer literals.) -/
def pyInt : Val → Option ℤ
  | .prim (.bool b) => some (if b then 1 else 0)
  | .prim (.int n) => some n
  | .prim (.float q) => some (ratTruncate q)
  | .prim (.str s) => s.toInt?
  | _ => none

/-- Python `float(value)`; `none` models a raised exception. (Decimal string
parsing is abstracted to integer literals.) -/
def pyFloat : Val → Option ℚ
  | .prim (.bool b) => some (if b then 1 else 0)
  | .prim (.int n) => some (n : ℚ)
  | .prim (.float q) => some q
  | .prim (.str s) => s.toInt?.map fun n => (n : ℚ)
  | _ => none

/-- Rendering of a scalar by Python `str()` (float rendering abstracted). -/
def pyStrPrim : Prim → String
  | .null => "None"
  | .bool b => if b then "True" else "False"
  | .int n => toString n
  | .float q => toString q
  | .str s => s

/-- Python `str(value)`: a total string cast (container rendering follows
Python's `repr`-per-element shape, with details abstracted). -/
def pyStr : Val → String
  | .prim p => pyStrPrim p
  | .list xs => "[" ++ String.intercalate ", " (xs.map pyStrPrim) ++ "]"
  | .obj fs =>
      "\x7b" ++ String.intercalate ", " (fs.map fun kv => kv.1 ++ ": " ++ pyStrPrim kv.2)
        ++ "\x7d"

/-- `isinstance(value, bool)`. -/
def Val.isPyBool : Val → Bool
  | .prim (.bool _) => true
  | _ => false

/-- `isinstance(value, (int, float))` — `bool` is a subclass of `int`. -/
def Val.isPyNumber : Val → Bool
  | .prim (.bool _) => true
  | .prim (.int _) => true
  | .prim (.float _) => true
  | _ => false

/-- The numeric value of a Python number (`bool`s count as 0/1); used for
`value > 0.5`. -/
def Val.pyNumVal : Val → ℚ
  | .prim (.bool b) => if b then 1 else 0
  | .prim (.int n) => n
  | .prim (.float q) => q
  | _ => 0

/-- `OSCBridgeClient._convert_type`. `Except.error ()` models a raised
exception (caught by the caller, which then abandons only the current
destination or event). An unknown target type or direction is passthrough
with a logged warning, never an error. -/
def convertType (value : Val) (targetType : Option String) (direction : String) :
    Except Unit Val :=
  match targetType with
  | none => .ok value
  | some t =>
    match parseDirection direction, parseOSCType t with
    | some d, some ot =>
      match ot with
      | .int =>
        match d, value with
        | .to_osc, .prim (.bool b) => .ok (.prim (.int (if b then 1 else 0)))
        | _, _ =>
          match pyInt value with
          | some n => .ok (.prim (.int n))
          | none => .error ()
      | .float =>
        match pyFloat value with
        | some q => .ok (.prim (.float q))
        | none => .error ()
      | .bool =>
        match d, value.isPyNumber with
        | .to_websocket, true => .ok (.prim (.bool (decide (value.pyNumVal > 1 / 2))))
        | _, _ => .ok (.prim (.bool value.truthy))
      | .string => .ok (.prim (.str (pyStr value)))
    | _, _ => .ok value

/-- A sent OSC packet: `client.send_message(address, osc_args)` aimed at
`host:port`. -/
structure Packet where
  host : Prim
  port : Prim
  address : Prim
  args : List Val
deriving DecidableEq

/-- The argument loop of `_send_osc_from_websocket` (the `for arg_spec …`
loop with its `else:` clause): `none` when the destination is aborted —
either by the `break` on a field that is absent with no declared default, or
by an exception raised during type conversion. -/
def buildOscArgs (message : List (String × Val)) : List ArgSpec → Option (List Val)
  | [] => some []
  | spec :: rest =>
    match (match getNonNull message spec.field with
           | some v => some v
           | none => spec.default) with
    | none => none
    | some v =>
      match convertType v spec.type "to_osc" with
      | .error _ => none
      | .ok cv => (buildOscArgs message rest).map fun args => cv :: args

/-- One destination of `_send_osc_from_websocket`: merge with the default
destination, skip if `host`/`port`/`address` is missing or falsy, then build
the full argument list; `none` when nothing is sent to this destination. -/
def sendDest (dflt : Dest) (message : List (String × Val)) (d : Dest) : Option Packet :=
  let m := mergeDest dflt d
  match m.host, m.port, m.address with
  | some h, some p, some a =>
    if h.truthy && p.truthy && a.truthy then
      (buildOscArgs message (m.args.getD [])).map fun args =>
        { host := h, port := p, address := a, args := args }
    else none
  | _, _, _ => none

/-- The destination loop: every destination is attempted in order; a
destination that sends nothing does not block its siblings. -/
def sendToDests (dflt : Dest) (message : List (String × Val)) : List Dest → List Packet
  | [] => []
  | d :: rest =>
    match sendDest dflt message d with
    | none => sendToDests dflt message rest
    | some pkt => pkt :: sendToDests dflt message rest

/-- The `conditions` gate: every declared field must compare Python-equal to
its declared value (`message.get(field) != expected_value` aborts the rule;
an absent field reads as null/None). -/
def conditionsHold (message : List (String × Val)) (conds : List (String × Val)) : Bool :=
  conds.all fun cond =>
    match getKey message cond.1 with
    | some v => pyEqVal v cond.2
    | none => pyEqVal (.prim .null) cond.2

/-- An outgoing bridge rule (static YAML configuration). -/
structure OutRule where
  websocket_type : Option Val
  conditions : List (String × Val)
  osc_destinations : List Dest
deriving DecidableEq

/-- `_send_osc_from_websocket` for one selected rule: check the conditions,
fall back to the default destination when the rule declares no destinations
and the default is non-empty, then run the destination loop. Returns the
packets actually sent. -/
def sendOscFromWebsocket (dflt : Dest) (message : List (String × Val)) (rule : OutRule) :
    List Packet :=
  if conditionsHold message rule.conditions then
    sendToDests dflt message
      (if rule.osc_destinations.isEmpty && !(Dest.isEmpty dflt) then [dflt]
       else rule.osc_destinations)
  else []

/-- One declared incoming argument: positional OSC index, target JSON field,
optional coercion type. -/
structure InArgSpec where
  osc_index : ℕ
  websocket_field : String
  type : Option String
deriving DecidableEq

/-- An incoming bridge rule (static YAML configuration); `websocket_type` is
optional only because `rule["websocket_type"]` raises a caught `KeyError`
when it is absent. -/
structure InRule where
  osc_address : Option Val
  websocket_type : Option Val
  args : List InArgSpec
deriving DecidableEq

/-- `rule.get("osc_address") == address`. -/
def addrMatches (r : InRule) (addr : String) : Bool :=
  match r.osc_address with
  | some v => pyEqVal v (.prim (.str addr))
  | none => false

/-- The argument loop of `_send_websocket_from_osc`, accumulating
`message_fields[websocket_field] = value`: `none` aborts the entire event —
an `osc_index` out of range of the received args, or an exception from type
conversion. -/
def buildWsFields (oscArgs : List Prim) (acc : List (String × Val)) :
    List InArgSpec → Option (List (String × Val))
  | [] => some acc
  | spec :: rest =>
    if h : spec.osc_index < oscArgs.length then
      match convertType (.prim (oscArgs.get ⟨spec.osc_index, h⟩)) spec.type "to_websocket" with
      | .error _ => none
      | .ok v => buildWsFields oscArgs (setKey acc spec.websocket_field v) rest
    else none

/-- `send_message(type, **fields)` serializes `{"type": type, **fields}`. -/
def wsMessage (t : Val) (fields : List (String × Val)) : List (String × Val) :=
  fields.foldl (fun acc kv => setKey acc kv.1 kv.2) [("type", t)]

/-- `_send_websocket_from_osc`: build the field dict from the positional OSC
args and emit one JSON message of the rule's target type, or nothing at all. -/
def sendWebsocketFromOsc (oscArgs : List Prim) (rule : InRule) :
    Option (List (String × Val)) :=
  match rule.websocket_type with
  | none => none
  | some wt => (buildWsFields oscArgs [] rule.args).map fun fields => wsMessage wt fields

/-- `_handle_osc_message`: scan the incoming rules in order, fire only the
first whose `osc_address` matches the event's address, and return
immediately. -/
def handleOscMessage (rules : List InRule) (address : String) (oscArgs : List Prim) :
    Option (List (String × Val)) :=
  match rules.find? (fun r => addrMatches r address) with
  | some r => sendWebsocketFromOsc oscArgs r
  | none => none

/-! ## Physical input scanner (`hardware/buzzers.py`) -/

/-- The scanner state shared between the GPIO thread and the client:
`enabled` is the externally controlled arm flag, `selected` the latch. -/
structure ScanState where
  enabled : Bool
  selected : Option ℕ
deriving DecidableEq

/-- Channel indices probed by one scan cycle: `range(7)` with the unwired
index 3 skipped. -/
def scanOrder : List ℕ := [0, 1, 2, 4, 5, 6]

/-- The inner `for c in range(7)` loop of `BuzzerThread.run`: with the
scanner armed, the first channel whose shared input line reads active-low
(`input c = false`, modelling `gpio.input(IN)` while channel `c` is driven)
latches `selected`, fires the press callback once, and breaks. Returns the
new state and the callback invocations. -/
def scanChannels (st : ScanState) (input : ℕ → Bool) :
    List ℕ → ScanState × List ℕ
  | [] => (st, [])
  | c :: rest =>
    if st.enabled && !(input c) then ({ st with selected := some c }, [c])
    else scanChannels st input rest

/-- One iteration of the scanner's `while True` loop: while a channel is
latched the loop only reasserts it (no state change, no callback); otherwise
it runs one scan cycle over `scanOrder`. -/
def scanCycle (st : ScanState) (input : ℕ → Bool) : ScanState × List ℕ :=
  match st.selected with
  | some _ => (st, [])
  | none => scanChannels st input scanOrder

/-- Interleaved history of the scanner thread (`scan`) and the external
writes performed by `BuzzerClient` (`clear` for `selected = None`,
`setEnabled` for the arm flag). -/
inductive BuzzEvent where
  | scan (input : ℕ → Bool)
  | clear
  | setEnabled (b : Bool)

/-- Whether an event is the external clear. -/
def BuzzEvent.isClear : BuzzEvent → Bool
  | .clear => true
  | _ => false

/-- Effect of one event on the scanner state. -/
def buzzStep (st : ScanState) : BuzzEvent → ScanState × List ℕ
  | .scan input => scanCycle st input
  | .clear => ({ st with selected := none }, [])
  | .setEnabled b => ({ st with enabled := b }, [])

/-- Run a sequence of events, collecting every callback invocation. -/
def buzzRun (st : ScanState) : List BuzzEvent → ScanState × List ℕ
  | [] => (st, [])
  | e :: es =>
    let s := buzzStep st e
    let r := buzzRun s.1 es
    (r.1, s.2 ++ r.2)

/-! ## Concrete data used to instantiate the theorems -/

/-- A plain connection with channel identity `chan-A` (the sender in the
broadcast scenario). -/
def connA : Conn := ⟨"chan-A", none, none⟩

/-- A plain connection with channel identity `chan-B`. -/
def connB : Conn := ⟨"chan-B", none, none⟩

/-- A two-member Room. -/
def demoRoom : List Conn := [connA, connB]

/-- A minimal well-formed message with no recipient. -/
def demoFields : List (String × Val) := [("type", Val.prim (.str "x"))]

/-- A buzzer connection with client id `b1`. -/
def connBz1 : Conn := ⟨"chan-1", some "buzzer", some "b1"⟩

/-- A buzzer connection with client id `b2`. -/
def connBz2 : Conn := ⟨"chan-2", some "buzzer", some "b2"⟩

/-- A Room of two buzzer connections. -/
def demoRoom2 : List Conn := [connBz1, connBz2]

/-- A recipient selector targeting client type and client id together. -/
def demoRecipient : List (String × Prim) :=
  [("client_type", .str "buzzer"), ("client_id", .str "b2")]

/-- A message carrying `demoRecipient`. -/
def demoFields2 : List (String × Val) :=
  [("type", Val.prim (.str "command")), ("recipient", Val.obj demoRecipient)]

/-- An input assignment where only channel 4 reads active-low (pressed). -/
def demoInput : ℕ → Bool := fun c => c ≠ 4

/-- A short event history with scans and an external disarm but no clear. -/
def demoEvents : List BuzzEvent := [.scan demoInput, .setEnabled false, .scan demoInput]

/-- The liveness probe of the spec's example. -/
def pingDemo : List (String × Val) :=
  [("type", Val.prim (.str "ping")), ("timestamp", Val.prim (.int 12345)),
   ("sender_id", Val.prim (.str "server"))]

/-- An ordinary application message. -/
def otherDemo : List (String × Val) :=
  [("type", Val.prim (.str "toggle_buzzers")), ("enabled", Val.prim (.bool true))]

/-- A message that has a `present` field and no `absent` field. -/
def demoMsg5 : List (String × Val) := [("present", Val.prim (.str "hello"))]

/-- A complete default destination, as in the test configuration. -/
def demoDflt : Dest :=
  ⟨some (.str "192.168.1.100"), some (.int 53000), some (.str "/test"), none⟩

/-- A destination whose single argument reads a missing field with no
default: nothing is ever sent to it. -/
def demoBadDest : Dest := ⟨none, none, none, some [⟨"absent", none, none⟩]⟩

/-- A destination whose single argument resolves from `demoMsg5`. -/
def demoGoodDest : Dest := ⟨none, none, none, some [⟨"present", none, none⟩]⟩

/-- An incoming rule for `/buzzer/press` with two positional arguments. -/
def demoRuleA : InRule :=
  ⟨some (Val.prim (.str "/buzzer/press")), some (Val.prim (.str "buzzer_pressed")),
   [⟨0, "buzzerId", none⟩, ⟨1, "pressure", none⟩]⟩

/-- A second incoming rule for the same address, which must never fire. -/
def demoRuleB : InRule :=
  ⟨some (Val.prim (.str "/buzzer/press")), some (Val.prim (.str "other_type")), []⟩

/-- The empty destination dict (`config.get("default_destination", {})` when
the key is absent). -/
def emptyDest : Dest := ⟨none, none, none, none⟩

/-- A `toggle_buzzers` message satisfying `condRule`'s condition. -/
def demoToggleMsg : List (String × Val) :=
  [("type", Val.prim (.str "toggle_buzzers")), ("enabled", Val.prim (.bool true))]

/-- An outgoing rule with a condition and no declared destinations. -/
def condRule : OutRule :=
  ⟨some (Val.prim (.str "toggle_buzzers")), [("enabled", Val.prim (.bool true))], []⟩

/-! ## Theorems -/

/-- C1, counterexample: the claim says every receiver of a recipient-less
broadcast sees a `channel_id` equal to the sending Connection's identity. In
the Room `[connA, connB]` with `connA` (identity `chan-A`) sending
`{type: "x"}`, the copy delivered to `connB` carries
`channel_id = "chan-B"`, which differs from the sender's `"chan-A"`: the
code stamps each copy inside the receiving consumer's `game_message`, so the
injected identity is the receiver's own. -/
theorem c1_counterexample :
    relay demoRoom (.obj demoFields) =
      [(connA, [("type", Val.prim (.str "x")), ("channel_id", Val.prim (.str "chan-A"))]),
       (connB, [("type", Val.prim (.str "x")), ("channel_id", Val.prim (.str "chan-B"))])] ∧
    ("chan-B" : String) ≠ "chan-A" := ⟨by decide, by decide⟩

/-- C1 (amended): a message relayed with no (or falsy) recipient selector is
broadcast to every Connection in the Room, and each receiver's copy carries a
`channel_id` field equal to that receiving Connection's own channel
identity. -/
theorem c1_broadcast_stamps_receiver_identity
    (room : List Conn) (fields : List (String × Val))
    (htype : (getKey fields "type").isSome)
    (hrec : ∀ r, getKey fields "recipient" = some r → r.truthy = false) :
    relay room (.obj fields) =
      room.map fun c => (c, setKey fields "channel_id" (Val.prim (.str c.channel_name))) := by
  have haction : receive_json (.obj fields) = .broadcast fields := by
    unfold receive_json
    cases hty : getKey fields "type" with
    | none => rw [hty] at htype; exact absurd htype (by simp)
    | some tv =>
      cases hrc : getKey fields "recipient" with
      | none => simp [hty, hrc]
      | some r => simp [hty, hrc, hrec r hrc]
  unfold relay
  rw [haction]
  induction room with
  | nil => rfl
  | cons c cs ih => simpa [game_message] using ih

/-- C1, witness: the amended broadcast theorem applied to the concrete
two-member Room. -/
theorem c1_broadcast_witness :
    relay demoRoom (.obj demoFields) =
      demoRoom.map fun c => (c, setKey demoFields "channel_id" (Val.prim (.str c.channel_name))) :=
  c1_broadcast_stamps_receiver_identity demoRoom demoFields (by decide)
    (fun r h => by
      rw [show getKey demoFields "recipient" = none by decide] at h
      exact Option.noConfusion h)

/-- C2: for a relayed message whose recipient selector contains `client_id`
and/or `client_type`, a Connection receives the message iff it is in the
Room and every key present in the selector (`channel_id`, `client_id`,
`client_type`) equals its corresponding attribute — `matchesRecipient` is
exactly that conjunction, so a Connection differing on any present key
receives nothing. -/
theorem c2_selector_and_semantics
    (room : List Conn) (fields : List (String × Val)) (rf : List (String × Prim)) (conn : Conn)
    (htype : (getKey fields "type").isSome)
    (hrec : getKey fields "recipient" = some (.obj rf))
    (hkey : (getKey rf "client_id").isSome ∨ (getKey rf "client_type").isSome) :
    (∃ m, (conn, m) ∈ relay room (.obj fields)) ↔
      conn ∈ room ∧ matchesRecipient conn rf = true := by
  have hne : rf ≠ [] := by
    rintro rfl
    simp [getKey] at hkey
  have hguard : ((getKey rf "channel_id").isSome && rf.length == 1) = false := by
    rcases rf with _ | ⟨⟨k, v⟩, rest⟩
    · exact absurd rfl hne
    · rcases rest with _ | ⟨kv2, rest2⟩
      · rcases hkey with h | h
        · by_cases hk : k = "client_id"
          · subst hk; simp [getKey]
          · simp [getKey, hk] at h
        · by_cases hk : k = "client_type"
          · subst hk; simp [getKey]
          · simp [getKey, hk] at h
      · simp
  have haction : receive_json (.obj fields) = .filtered fields rf := by
    unfold receive_json
    cases hty : getKey fields "type" with
    | none => rw [hty] at htype; exact absurd htype (by simp)
    | some tv =>
      have htr : (Val.obj rf).truthy = true := by
        simp [Val.truthy, hne]
      simp [hty, hrec, htr, hguard]
  unfold relay
  rw [haction]
  constructor
  · rintro ⟨m, hm⟩
    rw [List.mem_filterMap] at hm
    obtain ⟨c, hc, hfc⟩ := hm
    rw [Option.map_eq_some'] at hfc
    obtain ⟨m', hgm, heq⟩ := hfc
    rw [Prod.mk.injEq] at heq
    obtain ⟨rfl, rfl⟩ := heq
    cases hmr : matchesRecipient c rf with
    | false => simp [game_message, hmr] at hgm
    | true => exact ⟨hc, rfl⟩
  · rintro ⟨hcm, hmr⟩
    refine ⟨setKey fields "channel_id" (.prim (.str conn.channel_name)), ?_⟩
    rw [List.mem_filterMap]
    exact ⟨conn, hcm, by simp [game_message, hmr]⟩

/-- C2, witness: `{client_type: buzzer, client_id: b2}` delivers to the
Connection matching both attributes and not to the one differing on
`client_id`. -/
theorem c2_witness :
    (∃ m, (connBz2, m) ∈ relay demoRoom2 (.obj demoFields2)) ∧
    ¬ ∃ m, (connBz1, m) ∈ relay demoRoom2 (.obj demoFields2) := by
  constructor
  · exact (c2_selector_and_semantics demoRoom2 demoFields2 demoRecipient connBz2
      (by decide) (by decide) (by decide)).mpr ⟨by decide, by decide⟩
  · intro h
    have hmr := (c2_selector_and_semantics demoRoom2 demoFields2 demoRecipient connBz1
      (by decide) (by decide) (by decide)).mp h
    exact absurd hmr.2 (by decide)

/-- C3, counterexample: the claim says a message whose `type` field is
present but not a string is dropped. The code only tests key presence
(`"type" not in content`), so `{type: 5}` is broadcast and delivered, not
dropped. -/
theorem c3_counterexample :
    receive_json (.obj [("type", Val.prim (.int 5))]) =
      .broadcast [("type", Val.prim (.int 5))] ∧
    relay [connA] (.obj [("type", Val.prim (.int 5))]) =
      [(connA, [("type", Val.prim (.int 5)), ("channel_id", Val.prim (.str "chan-A"))])] :=
  ⟨by decide, by decide⟩

/-- C3 (amended): `receive_json` drops a frame — delivering nothing, with no
error surfaced and no broadcast fallback — exactly when the frame is not a
mapping, or its `type` key is absent, or a `recipient` key is present whose
value is truthy and not a mapping. (A present non-string `type` is relayed,
and a falsy `recipient` value leads to a broadcast, not a drop.) -/
theorem c3_drop_characterization (content : Frame) :
    receive_json content = .drop ↔
      ((∃ v, content = .notObj v) ∨
       ∃ fields, content = .obj fields ∧
         (getKey fields "type" = none ∨
          ∃ r, getKey fields "recipient" = some r ∧ r.truthy = true ∧ r.isObj = false)) := by
  cases content with
  | notObj v => simp [receive_json]
  | obj fields =>
    unfold receive_json
    rcases hty : getKey fields "type" with _ | tv
    · simp [hty]
    · rcases hrc : getKey fields "recipient" with _ | r
      · simp [hty, hrc]
      · cases htr : r.truthy with
        | false => simp [hty, hrc, htr]
        | true =>
          rcases r with p | xs | rfobj
          · simp [hty, hrc, htr, Val.isObj]
          · simp [hty, hrc, htr, Val.isObj]
          · by_cases hg : ((getKey rfobj "channel_id").isSome = true ∧ rfobj.length = 1)
            · simp [hty, hrc, htr, Val.isObj, hg]
            · simp [hty, hrc, htr, Val.isObj, hg]

/-- C4: the reconnect delays after consecutive failures from a fresh start
follow `0.1 * 2 ^ n` capped at `5.0` — concretely `0.1, 0.2, 0.4, 0.8, 1.6,
3.2, 5.0, 5.0, …` — and one successful connection resets the next delay to
the `0.1` baseline regardless of the accumulated backoff. -/
theorem c4_backoff_sequence :
    (∀ n : ℕ, n ≤ 5 → delayAfterFailures n = (1 / 10 : ℚ) * 2 ^ n) ∧
    (∀ n : ℕ, 6 ≤ n → delayAfterFailures n = 5) ∧
    reconnectDelays baselineBackoff (List.replicate 8 .fail) =
      [1/10, 2/10, 4/10, 8/10, 16/10, 32/10, 5, 5] ∧
    (∀ (b : ℚ) (attempts : List Attempt),
      reconnectDelays b (.succeedThenDrop :: attempts) =
        baselineBackoff :: reconnectDelays (nextBackoff baselineBackoff) attempts) := by
  refine ⟨?_, ?_, ?_, fun b attempts => rfl⟩
  · intro n hn
    interval_cases n <;>
      norm_num [delayAfterFailures, nextBackoff, baselineBackoff, maxBackoff, min_def]
  · intro n hn
    induction n, hn using Nat.le_induction with
    | base =>
        norm_num [delayAfterFailures, nextBackoff, baselineBackoff, maxBackoff, min_def]
    | succ n hn ih =>
        simp only [delayAfterFailures, ih]
        norm_num [nextBackoff, maxBackoff, min_def]
  · norm_num [reconnectDelays, connectStep, List.replicate, nextBackoff, baselineBackoff,
      maxBackoff, min_def]

/-- C4, witness: the fourth delay of a failing run, the capped delay, and a
run where a success resets the delay to the baseline. -/
theorem c4_witness :
    delayAfterFailures 3 = (1 / 10 : ℚ) * 2 ^ 3 ∧
    delayAfterFailures 7 = 5 ∧
    reconnectDelays baselineBackoff [.succeedThenDrop, .fail] = [1/10, 2/10] := by
  refine ⟨c4_backoff_sequence.1 3 (by norm_num), c4_backoff_sequence.2.1 7 (by norm_num), ?_⟩
  rw [c4_backoff_sequence.2.2.2 baselineBackoff [Attempt.fail]]
  norm_num [reconnectDelays, connectStep, nextBackoff, baselineBackoff, maxBackoff, min_def]

/-- C5: outgoing argument resolution per destination: a declared argument
whose field is absent resolves to the declared default when there is one;
when the field is absent and there is no default the whole destination is
aborted (no partial argument list, wherever the failing argument sits); and
a destination that sends nothing leaves the packets of the surrounding
destinations of the same message unchanged. -/
theorem c5_outgoing_arg_resolution :
    (∀ (message : List (String × Val)) (f : String) (ty : Option String) (dv : Val)
        (rest : List ArgSpec), getNonNull message f = none →
       buildOscArgs message (⟨f, ty, some dv⟩ :: rest) =
         match convertType dv ty "to_osc" with
         | .error _ => none
         | .ok cv => (buildOscArgs message rest).map fun args => cv :: args) ∧
    (∀ (message : List (String × Val)) (f : String) (ty : Option String)
        (pre post : List ArgSpec), getNonNull message f = none →
       buildOscArgs message (pre ++ ⟨f, ty, none⟩ :: post) = none) ∧
    (∀ (dflt : Dest) (message : List (String × Val)) (d : Dest) (ds1 ds2 : List Dest),
       sendDest dflt message d = none →
       sendToDests dflt message (ds1 ++ d :: ds2) =
         sendToDests dflt message ds1 ++ sendToDests dflt message ds2) := by
  refine ⟨?_, ?_, ?_⟩
  · intro message f ty dv rest h
    simp [buildOscArgs, h]
  · intro message f ty pre post h
    induction pre with
    | nil => simp [buildOscArgs, h]
    | cons spec pre ih =>
      simp only [List.cons_append, buildOscArgs, ih]
      split
      · rfl
      · split
        · rfl
        · have ih' : buildOscArgs message
              (List.append pre ({ field := f, type := ty, default := none } :: post)) =
              none := ih
          rw [ih']
          rfl
  · intro dflt message d ds1 ds2 h
    induction ds1 with
    | nil => simp [sendToDests, h]
    | cons d1 ds1 ih =>
      simp only [List.cons_append, sendToDests, ih]
      split
      · exact ih
      · rw [List.cons_append]
        exact congrArg _ ih

/-- C5, witness: a missing field with `default: 42` yields `42`; a missing
field with no default aborts the destination even with earlier arguments
resolved; and a failing destination leaves its sibling destination's packets
untouched. -/
theorem c5_witness :
    buildOscArgs demoMsg5 [⟨"absent", none, some (Val.prim (.int 42))⟩] =
      some [Val.prim (.int 42)] ∧
    buildOscArgs demoMsg5 [⟨"present", none, none⟩, ⟨"absent", none, none⟩] = none ∧
    sendToDests demoDflt demoMsg5 ([] ++ demoBadDest :: [demoGoodDest]) =
      sendToDests demoDflt demoMsg5 [] ++ sendToDests demoDflt demoMsg5 [demoGoodDest] := by
  refine ⟨?_,
    c5_outgoing_arg_resolution.2.1 demoMsg5 "absent" none [⟨"present", none, none⟩] []
      (by decide),
    c5_outgoing_arg_resolution.2.2 demoDflt demoMsg5 demoBadDest [] [demoGoodDest]
      (by decide)⟩
  rw [c5_outgoing_arg_resolution.1 demoMsg5 "absent" none (Val.prim (.int 42)) [] (by decide)]
  rfl

/-- Completion of the incoming argument loop requires every declared index in
range: an out-of-range index anywhere in the spec list forces the `none`
outcome. -/
theorem buildWsFields_oob (oscArgs : List Prim) :
    ∀ (specs : List InArgSpec) (acc : List (String × Val)) (spec : InArgSpec),
      spec ∈ specs → oscArgs.length ≤ spec.osc_index →
      buildWsFields oscArgs acc specs = none := by
  intro specs
  induction specs with
  | nil => intro acc spec h _; exact absurd h (List.not_mem_nil spec)
  | cons s rest ih =>
    intro acc spec hmem hlen
    rcases List.mem_cons.mp hmem with rfl | hmem'
    · have hn : ¬ spec.osc_index < oscArgs.length := by omega
      simp [buildWsFields, hn]
    · unfold buildWsFields
      split
      · split
        · rfl
        · exact ih _ spec hmem' hlen
      · rfl

/-- C6: `_handle_osc_message` applies only the first incoming rule whose
address matches the event's address (earlier non-matching rules are skipped,
later rules are never consulted), and a rule declaring an argument whose
positional index is out of range of the received args emits no JSON message
at all. -/
theorem c6_first_match_and_abort :
    (∀ (pre : List InRule) (r : InRule) (post : List InRule) (addr : String)
        (oscArgs : List Prim),
       (∀ r' ∈ pre, addrMatches r' addr = false) → addrMatches r addr = true →
       handleOscMessage (pre ++ r :: post) addr oscArgs = sendWebsocketFromOsc oscArgs r) ∧
    (∀ (oscArgs : List Prim) (r : InRule) (spec : InArgSpec),
       spec ∈ r.args → oscArgs.length ≤ spec.osc_index →
       sendWebsocketFromOsc oscArgs r = none) := by
  constructor
  · intro pre r post addr oscArgs hpre hr
    unfold handleOscMessage
    have hfind : (pre ++ r :: post).find? (fun r' => addrMatches r' addr) = some r := by
      induction pre with
      | nil => simp [List.find?, hr]
      | cons p pre ih =>
        have hp := hpre p (by simp)
        have ih' := ih fun r' h => hpre r' (by simp [h])
        simp [List.find?, hp, ih']
    rw [hfind]
  · intro oscArgs r spec hmem hlen
    unfold sendWebsocketFromOsc
    cases hwt : r.websocket_type with
    | none => rfl
    | some wt => rw [buildWsFields_oob oscArgs r.args [] spec hmem hlen]; rfl

/-- C6, witness: with two rules on `/buzzer/press`, the event is handled by
the first; and the same rule given one positional argument instead of two
emits nothing. -/
theorem c6_witness :
    handleOscMessage [demoRuleA, demoRuleB] "/buzzer/press" [.int 5, .int 1] =
      sendWebsocketFromOsc [.int 5, .int 1] demoRuleA ∧
    sendWebsocketFromOsc [.int 5] demoRuleA = none := by
  constructor
  · exact c6_first_match_and_abort.1 [] demoRuleA [demoRuleB] "/buzzer/press"
      [.int 5, .int 1] (by intro r' h; exact absurd h (List.not_mem_nil r')) (by decide)
  · exact c6_first_match_and_abort.2 [.int 5] demoRuleA ⟨1, "pressure", none⟩
      (by decide) (by decide)

/-- A scan over any channel list either leaves the unlatched state untouched
or latches exactly one channel of the list with exactly one callback. -/
theorem scanChannels_latch (input : ℕ → Bool) :
    ∀ (l : List ℕ) (st : ScanState),
      scanChannels st input l = (st, []) ∨
      ∃ c ∈ l, scanChannels st input l = ({ st with selected := some c }, [c]) := by
  intro l
  induction l with
  | nil => intro st; exact Or.inl rfl
  | cons c rest ih =>
    intro st
    by_cases h : (st.enabled && !(input c)) = true
    · right; exact ⟨c, by simp, by simp [scanChannels, h]⟩
    · rcases ih st with h1 | ⟨c', hc', h2⟩
      · left; simp [scanChannels, h, h1]
      · right; exact ⟨c', by simp [hc'], by simp [scanChannels, h, h2]⟩

/-- C7: the scanner's latch invariant. A latched cycle changes nothing and
fires no callback; an unlatched cycle either stays unlatched silently or
latches one scanned channel with exactly one callback; an external
`setEnabled` never touches the latch and only an external clear resets it;
and over any event history without a clear, a latched channel stays latched
and no further callback fires. -/
theorem c7_latch_invariant :
    (∀ (st : ScanState) (input : ℕ → Bool) (i : ℕ), st.selected = some i →
       scanCycle st input = (st, [])) ∧
    (∀ (st : ScanState) (input : ℕ → Bool), st.selected = none →
       scanCycle st input = (st, []) ∨
       ∃ c ∈ scanOrder, scanCycle st input = ({ st with selected := some c }, [c])) ∧
    (∀ (st : ScanState) (b : Bool), (buzzStep st (.setEnabled b)).1.selected = st.selected) ∧
    (∀ st : ScanState, (buzzStep st .clear).1.selected = none) ∧
    (∀ (st : ScanState) (i : ℕ) (es : List BuzzEvent), st.selected = some i →
       (es.all fun e => !e.isClear) = true →
       (buzzRun st es).1.selected = some i ∧ (buzzRun st es).2 = []) := by
  refine ⟨?_, ?_, fun st b => rfl, fun st => rfl, ?_⟩
  · intro st input i h
    simp [scanCycle, h]
  · intro st input h
    have := scanChannels_latch input scanOrder st
    simpa [scanCycle, h] using this
  · intro st i es
    induction es generalizing st with
    | nil => intro hsel _; exact ⟨hsel, rfl⟩
    | cons e es ih =>
      intro hsel hall
      rw [List.all_cons, Bool.and_eq_true] at hall
      obtain ⟨he, hall⟩ := hall
      cases e with
      | scan input =>
        have hstep : buzzStep st (.scan input) = (st, ([] : List ℕ)) := by
          simp [buzzStep, scanCycle, hsel]
        have ihr := ih st hsel hall
        simp [buzzRun, hstep, ihr.1, ihr.2]
      | clear => simp [BuzzEvent.isClear] at he
      | setEnabled b =>
        have ihr := ih { st with enabled := b } (by simpa using hsel) hall
        simp [buzzRun, buzzStep, ihr.1, ihr.2]

/-- C7, witness: a latched cycle is inert, an unlatched cycle latches at most
one channel, and a latched state survives a scan–disarm–scan history with no
callbacks. -/
theorem c7_witness :
    scanCycle ⟨true, some 2⟩ demoInput = (⟨true, some 2⟩, []) ∧
    (scanCycle ⟨true, none⟩ demoInput = (⟨true, none⟩, []) ∨
      ∃ c ∈ scanOrder, scanCycle ⟨true, none⟩ demoInput = (⟨true, some c⟩, [c])) ∧
    (buzzRun ⟨true, some 4⟩ demoEvents).1.selected = some 4 ∧
    (buzzRun ⟨true, some 4⟩ demoEvents).2 = [] := by
  have h5 := c7_latch_invariant.2.2.2.2 ⟨true, some 4⟩ 4 demoEvents rfl rfl
  exact ⟨c7_latch_invariant.1 ⟨true, some 2⟩ demoInput 2 rfl,
         c7_latch_invariant.2.1 ⟨true, none⟩ demoInput rfl, h5.1, h5.2⟩

/-- C8: a parsed frame `{type: ping, timestamp: T, sender_id: S}` is answered
with exactly `{type: pong, timestamp: T, recipient: S}` and is not forwarded
to the application handler; every other parsed frame is handed to the
application handler unchanged. -/
theorem c8_ping_reply (data : List (String × Val)) :
    (∀ T S, getKey data "type" = some (Val.prim (.str "ping")) →
      getKey data "timestamp" = some T → getKey data "sender_id" = some S →
      processFrame data = .reply
        [("type", Val.prim (.str "pong")), ("timestamp", T), ("recipient", S)]) ∧
    ((match getKey data "type" with
      | some v => pyEqVal v (.prim (.str "ping")) = false
      | none => True) →
      processFrame data = .deliver data) := by
  constructor
  · intro T S h1 h2 h3
    simp [processFrame, h1, h2, h3, pyEqVal, pyEqPrim, Prim.numVal?]
  · intro h
    cases hty : getKey data "type" with
    | none => simp [processFrame, hty]
    | some v =>
      simp only [hty] at h
      simp [processFrame, hty, h]

/-- C8, witness: the spec's example ping produces exactly the matching pong,
and an ordinary message is delivered to the handler. -/
theorem c8_witness :
    processFrame pingDemo = .reply
      [("type", Val.prim (.str "pong")), ("timestamp", Val.prim (.int 12345)),
       ("recipient", Val.prim (.str "server"))] ∧
    processFrame otherDemo = .deliver otherDemo :=
  ⟨(c8_ping_reply pingDemo).1 _ _ (by decide) (by decide) (by decide),
   (c8_ping_reply otherDemo).2
     (show pyEqVal (Val.prim (.str "toggle_buzzers")) (Val.prim (.str "ping")) = false
      by decide)⟩

/-- C9: the bridge's type coercion. `int` maps an outbound boolean to 0/1 and
truncates any other numeric toward zero; `float` is a numeric cast; `bool`
maps an inbound numeric through the `> 0.5` threshold and an outbound value
through truthiness; `string` is a total string cast; and an unspecified or
unknown type specifier passes the value through unchanged, never an
error. -/
theorem c9_type_coercion :
    (∀ b : Bool, convertType (.prim (.bool b)) (some "int") "to_osc" =
       .ok (.prim (.int (if b then 1 else 0)))) ∧
    (∀ n : ℤ, convertType (.prim (.int n)) (some "int") "to_osc" = .ok (.prim (.int n))) ∧
    (∀ q : ℚ, convertType (.prim (.float q)) (some "int") "to_osc" =
       .ok (.prim (.int (ratTruncate q)))) ∧
    (∀ n : ℤ, convertType (.prim (.int n)) (some "float") "to_osc" =
       .ok (.prim (.float (n : ℚ)))) ∧
    (∀ q : ℚ, convertType (.prim (.float q)) (some "float") "to_osc" =
       .ok (.prim (.float q))) ∧
    (∀ v : Val, v.isPyNumber = true →
       convertType v (some "bool") "to_websocket" =
         .ok (.prim (.bool (decide (v.pyNumVal > 1 / 2))))) ∧
    (∀ v : Val, convertType v (some "bool") "to_osc" = .ok (.prim (.bool v.truthy))) ∧
    (∀ (v : Val) (d : ConversionDirection) (s : String), parseDirection s = some d →
       convertType v (some "string") s = .ok (.prim (.str (pyStr v)))) ∧
    (∀ (v : Val) (s : String), convertType v none s = .ok v) ∧
    (∀ (v : Val) (s t : String), parseOSCType t = none →
       convertType v (some t) s = .ok v) := by
  refine ⟨fun b => rfl, fun n => rfl, fun q => rfl, fun n => rfl, fun q => rfl,
    ?_, ?_, ?_, fun v s => rfl, ?_⟩
  · intro v h
    rcases v with p | xs | fs
    · rcases p with _ | b | n | q | s
      · simp [Val.isPyNumber] at h
      · rfl
      · rfl
      · rfl
      · simp [Val.isPyNumber] at h
    · simp [Val.isPyNumber] at h
    · simp [Val.isPyNumber] at h
  · intro v
    rcases v with p | xs | fs
    · rcases p with _ | b | n | q | s <;> rfl
    · rfl
    · rfl
  · intro v d s h
    simp only [convertType]
    rw [h, show parseOSCType "string" = some OSCType.string from rfl]
  · intro v s t h
    simp only [convertType]
    rw [h]
    cases hp : parseDirection s with
    | none => rfl
    | some d => rfl

/-- C9, witness: an inbound numeric 1 under `bool` crosses the threshold, an
outbound boolean under `string` renders as `True`, and an unknown specifier
passes the value through. -/
theorem c9_witness :
    convertType (.prim (.int 1)) (some "bool") "to_websocket" = .ok (.prim (.bool true)) ∧
    convertType (.prim (.bool true)) (some "string") "to_osc" =
      .ok (.prim (.str "True")) ∧
    convertType (.prim (.str "x")) (some "weird") "to_osc" = .ok (.prim (.str "x")) := by
  refine ⟨?_, ?_, ?_⟩
  · rw [c9_type_coercion.2.2.2.2.2.1 (.prim (.int 1)) rfl,
      decide_eq_true (show Val.pyNumVal (.prim (.int 1)) > 1 / 2 by norm_num [Val.pyNumVal])]
  · rw [c9_type_coercion.2.2.2.2.2.2.2.1 (.prim (.bool true)) ConversionDirection.to_osc
      "to_osc" rfl]
    rfl
  · exact c9_type_coercion.2.2.2.2.2.2.2.2.2 (.prim (.str "x")) "to_osc" "weird" rfl

/-- C10: when a selected outgoing rule declares no destinations and the
configured default destination is non-empty, the default destination is
attempted as the sole destination; when the rule's destinations and the
default destination are both empty, no packet is sent for that rule. -/
theorem c10_default_destination :
    (∀ (dflt : Dest) (message : List (String × Val)) (rule : OutRule),
       conditionsHold message rule.conditions = true →
       rule.osc_destinations = [] → Dest.isEmpty dflt = false →
       sendOscFromWebsocket dflt message rule = sendToDests dflt message [dflt]) ∧
    (∀ (dflt : Dest) (message : List (String × Val)) (rule : OutRule),
       rule.osc_destinations = [] → Dest.isEmpty dflt = true →
       sendOscFromWebsocket dflt message rule = []) := by
  constructor
  · intro dflt message rule hc hd he
    simp [sendOscFromWebsocket, hc, hd, he]
  · intro dflt message rule hd he
    cases hc : conditionsHold message rule.conditions with
    | false => simp [sendOscFromWebsocket, hc]
    | true => simp [sendOscFromWebsocket, hc, hd, he, sendToDests]

/-- C10, witness: the condition-gated rule with no destinations sends through
the configured default destination alone, and with an empty default
destination it sends nothing. -/
theorem c10_witness :
    sendOscFromWebsocket demoDflt demoToggleMsg condRule =
      sendToDests demoDflt demoToggleMsg [demoDflt] ∧
    sendOscFromWebsocket emptyDest demoToggleMsg condRule = [] := by
  constructor
  · exact c10_default_destination.1 demoDflt demoToggleMsg condRule (by decide) rfl (by decide)
  · exact c10_default_destination.2 emptyDest demoToggleMsg condRule rfl (by decide)

end Quizzer
